import Mathlib

/-
Shallow embedding of valhalla's mjolnir SpeedAssigner
(src/src/mjolnir/speed_assigner.h).

The SpeedAssigner decides the default speed of a directed edge either
from a json configuration (FromConfig) keyed by country/state and
urban/rural, or from a heuristic waterfall (the tail of UpdateSpeed).
Machine integers are modelled as Nat (speeds are small unsigned values;
no arithmetic here can overflow a uint32_t for the 8-bit edge speeds
involved).  The float roundings `(uint32_t)(s * f + 0.5f)` are modelled
by exact integer arithmetic; for every factor used (1.25f, 0.8f, 0.85f,
0.5f) and every speed storable on an edge the truncated float
computation agrees with the exact rational value, since 1.25 and 0.5
are exactly representable and for 0.8f and 0.85f the relative error is
far below the distance of `s * f + 0.5` to the nearest integer crossing.
-/

namespace Valhalla

/-- Modelled from the spec: road classification rank is an ordinal 0..7
with motorway = 0 (the DirectedEdge/RoadClass declarations live outside
this repository slice; constructor names follow upstream). -/
inductive RoadClass where
  | kMotorway
  | kTrunk
  | kPrimary
  | kSecondary
  | kTertiary
  | kUnclassified
  | kResidential
  | kServiceOther
deriving DecidableEq, Repr

/-- The ordinal rank of a road class, used to index the per-class tables. -/
def RoadClass.rank : RoadClass → Nat
  | .kMotorway => 0
  | .kTrunk => 1
  | .kPrimary => 2
  | .kSecondary => 3
  | .kTertiary => 4
  | .kUnclassified => 5
  | .kResidential => 6
  | .kServiceOther => 7

/-- Modelled from the spec: the edge use categories consulted by the
speed assigner (plain way, ramp, turn channel, the four service uses,
the two ferry uses); `kOther` stands for every remaining use value. -/
inductive Use where
  | kRoad
  | kRamp
  | kTurnChannel
  | kDriveway
  | kAlley
  | kParkingAisle
  | kDriveThru
  | kFerry
  | kRailFerry
  | kOther
deriving DecidableEq, Repr

/-- Modelled from the spec: speed provenance, tagged-from-source versus
assigned by classification. -/
inductive SpeedType where
  | kClassified
  | kTagged
deriving DecidableEq, Repr

/-- Modelled from the spec: the vehicular-access bit of the forward and
reverse access masks. -/
def kVehicularAccess : Nat := 1

/-- Modelled from the spec: surface quality ranks in increasing
roughness; `kPavedRough` is the rough-paved threshold the assigner
compares against (smooth paved = 0, paved = 1, rough paved = 2). -/
def kPavedRough : Nat := 2

/-- Modelled from the spec: fixed constant speed for parking aisles
(value external to this repository slice). -/
def kParkingAisleSpeed : Nat := 15

/-- Modelled from the spec: fixed constant speed for driveways
(value external to this repository slice). -/
def kDrivewaySpeed : Nat := 10

/-- Modelled from the spec: fixed constant speed for drive-throughs
(value external to this repository slice). -/
def kDriveThruSpeed : Nat := 20

/-- Modelled from the spec: the edge attributes the speed assigner
reads and the single speed attribute it writes.  `other_fields` stands
for every remaining attribute of the upstream DirectedEdge, carried
along to express the frame property. -/
structure DirectedEdge where
  speed : Nat
  use : Use
  classification : RoadClass
  forwardaccess : Nat
  reverseaccess : Nat
  link : Bool
  roundabout : Bool
  sign : Bool
  surface : Nat
  speed_type : SpeedType
  length : Nat
  leaves_tile : Bool
  other_fields : Nat
deriving DecidableEq, Repr

/-- DirectedEdge::set_speed: writes the speed attribute, nothing else. -/
def DirectedEdge.set_speed (e : DirectedEdge) (s : Nat) : DirectedEdge :=
  { e with speed := s }

/-- Truncated `s * kTurnChannelFactor + 0.5f` with kTurnChannelFactor
= 1.25f: exact integer form (5 s + 2) / 4. -/
def mulTurnChannelFactor (s : Nat) : Nat := (5 * s + 2) / 4

/-- Truncated `s * kRampDensityFactor + 0.5f` with kRampDensityFactor
= 0.8f: exact integer form (8 s + 5) / 10. -/
def mulRampDensityFactor (s : Nat) : Nat := (8 * s + 5) / 10

/-- Truncated `s * kRampFactor + 0.5f` with kRampFactor = 0.85f: exact
integer form (17 s + 10) / 20. -/
def mulRampFactor (s : Nat) : Nat := (17 * s + 10) / 20

/-- Truncated `s * kRoundaboutFactor + 0.5f` with kRoundaboutFactor
= 0.5f: exact integer form (s + 1) / 2. -/
def mulRoundaboutFactor (s : Nat) : Nat := (s + 1) / 2

/-- SpeedAssigner::SpeedTable: fixed-shape speed record for one
geography and one urban/rural bucket.  The std::array fields are
modelled as lists; `SpeedTable.WF` states their fixed lengths. -/
structure SpeedTable where
  way : List Nat
  link_exiting : List Nat
  link_turning : List Nat
  roundabout : List Nat
  service : List Nat
deriving DecidableEq, Repr

/-- The fixed array shapes of the C++ SpeedTable:
std::array sizes 8, 5, 5, 8 and 4. -/
def SpeedTable.WF (st : SpeedTable) : Prop :=
  st.way.length = 8 ∧ st.link_exiting.length = 5 ∧ st.link_turning.length = 5 ∧
    st.roundabout.length = 8 ∧ st.service.length = 4

instance (st : SpeedTable) : Decidable st.WF := by
  unfold SpeedTable.WF
  infer_instance

/-- SpeedAssigner::tables: country/state key mapped to the pair
(urban table, rural table), i.e. the std::array indices 0 and 1. -/
abbrev TableRegistry := List (String × (SpeedTable × SpeedTable))

/-- unordered_map::find, returning the value stored under exactly this
key (the registry never holds duplicate keys, see `emplace`). -/
def mapFind (tables : TableRegistry) (k : String) : Option (SpeedTable × SpeedTable) :=
  match tables with
  | [] => none
  | kv :: rest => if kv.1 = k then some kv.2 else mapFind rest k

/-- unordered_map::emplace: inserts only when the key is not yet
present; an existing entry is kept unchanged. -/
def emplace (tables : TableRegistry) (k : String) (v : SpeedTable × SpeedTable) :
    TableRegistry :=
  match mapFind tables k with
  | some _ => tables
  | none => tables ++ [(k, v)]

/-- The lookup chain of SpeedAssigner::FromConfig: first the exact
country "." state key, then country ".", then the empty default key. -/
def lookupTables (tables : TableRegistry) (country state : String) :
    Option (SpeedTable × SpeedTable) :=
  match mapFind tables (country ++ "." ++ state) with
  | some v => some v
  | none =>
    match mapFind tables (country ++ ".") with
    | some v => some v
    | none => mapFind tables ""

namespace SpeedAssigner

/-- The table-driven assignment of SpeedAssigner::FromConfig once an
entry was found: bucket selection `found->second[density <= 8]`
(index 0 urban, index 1 rural), then the special-use switch, the link
branch with its rank bound, the roundabout branch and the plain way
branch.  The boolean is the C++ return value; the edge is returned
explicitly instead of being mutated in place. -/
def assign (found : SpeedTable × SpeedTable) (e : DirectedEdge) (density : Nat) :
    Bool × DirectedEdge :=
  let speed_table := if density ≤ 8 then found.2 else found.1
  let rc := e.classification.rank
  if e.use = Use.kDriveway then (true, e.set_speed (speed_table.service.getD 0 0))
  else if e.use = Use.kAlley then (true, e.set_speed (speed_table.service.getD 1 0))
  else if e.use = Use.kParkingAisle then (true, e.set_speed (speed_table.service.getD 2 0))
  else if e.use = Use.kDriveThru then (true, e.set_speed (speed_table.service.getD 3 0))
  else if e.link then
    if rc ≥ speed_table.link_exiting.length then (false, e)
    else if e.sign then (true, e.set_speed (speed_table.link_exiting.getD rc 0))
    else (true, e.set_speed (speed_table.link_turning.getD rc 0))
  else if e.roundabout then (true, e.set_speed (speed_table.roundabout.getD rc 0))
  else (true, e.set_speed (speed_table.way.getD rc 0))

/-- SpeedAssigner::FromConfig: ferries and edges without vehicular
access are not resolved; otherwise look the tables up through the
fallback chain and assign on a hit. -/
def FromConfig (tables : TableRegistry) (e : DirectedEdge) (density : Nat)
    (country state : String) : Bool × DirectedEdge :=
  if e.use = Use.kFerry ∨ e.use = Use.kRailFerry ∨
      (e.forwardaccess ||| e.reverseaccess) &&& kVehicularAccess = 0 then
    (false, e)
  else
    match lookupTables tables country state with
    | none => (false, e)
    | some found => assign found e density

/-- Urban density step of UpdateSpeed: above density 8 the speed is
taken from the caller-supplied urban_rc_speed table at the
classification rank (an unchecked pointer read in the C++;
totalised here with default 0). -/
def urbanStep (e : DirectedEdge) (density : Nat) (urban_rc_speed : List Nat) : DirectedEdge :=
  if density > 8 then e.set_speed (urban_rc_speed.getD e.classification.rank 0) else e

/-- Roundabout step of UpdateSpeed: halve the speed currently held
(default or urban), rounding to nearest. -/
def roundaboutStep (e : DirectedEdge) : DirectedEdge :=
  if e.roundabout then e.set_speed (mulRoundaboutFactor e.speed) else e

/-- Service step of UpdateSpeed: fixed speeds on parking aisles,
driveways and drive-throughs. -/
def serviceStep (e : DirectedEdge) : DirectedEdge :=
  if e.use = Use.kParkingAisle then e.set_speed kParkingAisleSpeed
  else if e.use = Use.kDriveway then e.set_speed kDrivewaySpeed
  else if e.use = Use.kDriveThru then e.set_speed kDriveThruSpeed
  else e

/-- Surface step of UpdateSpeed: halve the speed by integer division
on rough surfaces. -/
def surfaceStep (e : DirectedEdge) : DirectedEdge :=
  if e.surface ≥ kPavedRough then e.set_speed (e.speed / 2) else e

/-- The heuristic tail of SpeedAssigner::UpdateSpeed (everything after
the config check): link branch, tagged branch, rail ferry, ferry, then
the four cumulative statements, applied in the source's order urban,
roundabout, service, surface. -/
def HeuristicUpdate (e : DirectedEdge) (density : Nat) (urban_rc_speed : List Nat)
    (infer_turn_channels : Bool) : DirectedEdge :=
  if e.link then
    let speed :=
      if e.use = Use.kTurnChannel ∧ infer_turn_channels then
        mulTurnChannelFactor e.speed
      else if e.use = Use.kRamp ∧ e.speed_type ≠ SpeedType.kTagged then
        if e.classification = RoadClass.kMotorway ∨ e.classification = RoadClass.kTrunk ∨
            e.classification = RoadClass.kPrimary then
          if density > 8 then mulRampDensityFactor e.speed else mulRampFactor e.speed
        else mulRampFactor e.speed
      else e.speed
    e.set_speed speed
  else if e.speed_type = SpeedType.kTagged then
    if e.surface ≥ kPavedRough then
      if e.speed ≥ 50 then e.set_speed (e.speed - 10)
      else if e.speed > 15 then e.set_speed (e.speed - 5)
      else e
    else e
  else if e.use = Use.kRailFerry then
    e.set_speed 65
  else if e.use = Use.kFerry then
    if e.leaves_tile then e
    else if e.length < 2000 then e.set_speed 10
    else if e.length < 8000 then e.set_speed 20
    else e.set_speed 30
  else
    surfaceStep (serviceStep (roundaboutStep (urbanStep e density urban_rc_speed)))

end SpeedAssigner

/-- The json values the configuration parser produces.  Only the
shapes the speed assigner consults are distinguished; `null` stands
for any json value that is neither a uint, a string, an array nor an
object. -/
inductive JValue where
  | num (n : Nat)
  | str (s : String)
  | arr (xs : List JValue)
  | obj (fields : List (String × JValue))
  | null

/-- Modelled from the spec: member access `obj[name]` of the json
library, a fatal parse error when the member is absent or the value is
not an object (absence of any named field degrades the whole registry
to empty). -/
def JValue.getMember (v : JValue) (name : String) : Except String JValue :=
  match v with
  | .obj fields =>
    match fields.find? (fun kv => kv.1 = name) with
    | some kv => Except.ok kv.2
    | none => Except.error ("missing member " ++ name)
  | _ => Except.error "not an object"

/-- Modelled from the spec: `GetUint()`, a fatal parse error on a
non-uint value. -/
def JValue.getUint (v : JValue) : Except String Nat :=
  match v with
  | .num n => Except.ok n
  | _ => Except.error "not a uint"

/-- Modelled from the spec: `GetString()`, a fatal parse error on a
non-string value. -/
def JValue.getString (v : JValue) : Except String String :=
  match v with
  | .str s => Except.ok s
  | _ => Except.error "not a string"

/-- Modelled from the spec: `GetArray()`, a fatal parse error on a
non-array value. -/
def JValue.getArray (v : JValue) : Except String (List JValue) :=
  match v with
  | .arr xs => Except.ok xs
  | _ => Except.error "not an array"

/-- SpeedTable::parse: read the named member as an array, require the
exact fixed length, then read every element as a uint.  Exceptions are
modelled by the error side of Except. -/
def SpeedTable.parseField (obj : JValue) (name : String) (size : Nat) :
    Except String (List Nat) := do
  let v ← obj.getMember name
  let arr ← v.getArray
  if arr.length ≠ size then
    Except.error (name ++ " must have " ++ toString size ++ " speeds")
  else
    arr.mapM JValue.getUint

/-- SpeedTable::SpeedTable(const rapidjson::Value&): parse the four
fixed-length arrays in declaration order, then the four service
scalars driveway, alley, parking_aisle, drive-through. -/
def SpeedTable.ofJson (obj : JValue) : Except String SpeedTable := do
  let way ← SpeedTable.parseField obj "way" 8
  let link_exiting ← SpeedTable.parseField obj "link_exiting" 5
  let link_turning ← SpeedTable.parseField obj "link_turning" 5
  let roundabout ← SpeedTable.parseField obj "roundabout" 8
  let driveway ← (← obj.getMember "driveway").getUint
  let alley ← (← obj.getMember "alley").getUint
  let parking_aisle ← (← obj.getMember "parking_aisle").getUint
  let drive_through ← (← obj.getMember "drive-through").getUint
  Except.ok ⟨way, link_exiting, link_turning, roundabout,
    [driveway, alley, parking_aisle, drive_through]⟩

/-- A well-formed SpeedTable specification document, following the
configuration format of the spec: the four named arrays and the four
service scalars. -/
def SpeedTable.toJson (st : SpeedTable) : JValue :=
  JValue.obj
    [("way", JValue.arr (st.way.map JValue.num)),
     ("link_exiting", JValue.arr (st.link_exiting.map JValue.num)),
     ("link_turning", JValue.arr (st.link_turning.map JValue.num)),
     ("roundabout", JValue.arr (st.roundabout.map JValue.num)),
     ("driveway", JValue.num (st.service.getD 0 0)),
     ("alley", JValue.num (st.service.getD 1 0)),
     ("parking_aisle", JValue.num (st.service.getD 2 0)),
     ("drive-through", JValue.num (st.service.getD 3 0))]

/-- One country/state record of a configuration document. -/
structure ConfigRecord where
  country : String
  state : String
  urban : SpeedTable
  rural : SpeedTable

/-- The registry key of a record: country code, ".", subdivision code. -/
def ConfigRecord.key (r : ConfigRecord) : String :=
  r.country ++ "." ++ r.state

/-- A well-formed country/state record document, following the
configuration format of the spec. -/
def ConfigRecord.toJson (r : ConfigRecord) : JValue :=
  JValue.obj
    [("iso3166-1", JValue.str r.country),
     ("iso3166-2", JValue.str r.state),
     ("urban", r.urban.toJson),
     ("rural", r.rural.toJson)]

namespace SpeedAssigner

/-- One iteration of the record loop of the SpeedAssigner constructor:
build the key `iso3166-1 ++ "." ++ iso3166-2`, parse the urban and
rural tables in that order and emplace the pair. -/
def buildRecord (tables : TableRegistry) (cs : JValue) : Except String TableRegistry := do
  let country ← (← cs.getMember "iso3166-1").getString
  let state ← (← cs.getMember "iso3166-2").getString
  let urban ← SpeedTable.ofJson (← cs.getMember "urban")
  let rural ← SpeedTable.ofJson (← cs.getMember "rural")
  Except.ok (emplace tables (country ++ "." ++ state) (urban, rural))

/-- The whole record loop: the document must be a json array; each
record is folded in through `buildRecord`. -/
def buildRegistry (doc : JValue) : Except String TableRegistry := do
  let records ←
    match doc with
    | .arr rs => Except.ok rs
    | _ => Except.error "must be a json array"
  records.foldlM buildRecord []

/-- The possible outcomes of reading the configuration file before the
record loop runs: no path configured, an unreadable or missing file,
a document with a syntax error, or a parsed document. -/
inductive ConfigInput where
  | noConfig
  | ioError (msg : String)
  | parseError
  | parsed (doc : JValue)

/-- SpeedAssigner::SpeedAssigner: an absent config path leaves the
registry empty; every exception thrown while reading, parsing or
looping over the document is caught and clears the registry; only a
fully successful load keeps its entries. -/
def construct : ConfigInput → TableRegistry
  | .noConfig => []
  | .ioError _ => []
  | .parseError => []
  | .parsed doc =>
    match buildRegistry doc with
    | .ok tables => tables
    | .error _ => []

/-- SpeedAssigner::UpdateSpeed: when the registry is non-empty the
config path is tried first and a resolution is final; otherwise the
heuristic tail runs on the edge (which a failed FromConfig left
untouched). -/
def UpdateSpeed (tables : TableRegistry) (e : DirectedEdge) (density : Nat)
    (urban_rc_speed : List Nat) (infer_turn_channels : Bool)
    (country_code state_code : String) : DirectedEdge :=
  if tables.isEmpty then HeuristicUpdate e density urban_rc_speed infer_turn_channels
  else
    match FromConfig tables e density country_code state_code with
    | (true, e2) => e2
    | (false, e2) => HeuristicUpdate e2 density urban_rc_speed infer_turn_channels

/-- The index at which the heuristic tail of UpdateSpeed reads the
caller-supplied urban_rc_speed table, following the control flow of
`HeuristicUpdate` (none when that unchecked read never happens). -/
def heuristicUrbanReadIndex (e : DirectedEdge) (density : Nat) : Option Nat :=
  if e.link then none
  else if e.speed_type = SpeedType.kTagged then none
  else if e.use = Use.kRailFerry then none
  else if e.use = Use.kFerry then none
  else if density > 8 then some e.classification.rank
  else none

end SpeedAssigner

/-- Concrete urban speed table used to exercise the theorems. -/
def sampleUrban : SpeedTable :=
  ⟨[1, 2, 3, 4, 5, 6, 7, 8], [9, 10, 11, 12, 13], [15, 16, 17, 18, 19],
   [21, 22, 23, 24, 25, 26, 27, 28], [29, 30, 31, 32]⟩

/-- Concrete rural speed table used to exercise the theorems. -/
def sampleRural : SpeedTable :=
  ⟨[33, 34, 35, 36, 37, 38, 39, 40], [41, 42, 43, 44, 45], [47, 48, 49, 50, 51],
   [53, 54, 55, 56, 57, 58, 59, 60], [61, 62, 63, 64]⟩

/-- Concrete country/state record used to exercise the theorems. -/
def sampleRecord : ConfigRecord := ⟨"us", "pa", sampleUrban, sampleRural⟩

/-- Second concrete record, distinct key from `sampleRecord`. -/
def sampleRecord2 : ConfigRecord := ⟨"us", "ca", sampleRural, sampleUrban⟩

/-- Concrete registry with a country/state entry, a country-only entry
and a global default entry, used to exercise the lookup order. -/
def sampleRegistry : TableRegistry :=
  [("us.pa", (sampleUrban, sampleRural)), ("us.", (sampleRural, sampleRural)),
   ("", (sampleUrban, sampleUrban))]

/-- Concrete edge used to exercise the theorems: a plain motorway way
with vehicular access and default speed 100. -/
def sampleEdge : DirectedEdge :=
  ⟨100, Use.kRoad, RoadClass.kMotorway, 1, 0, false, false, false, 0,
   SpeedType.kClassified, 0, false, 0⟩

/-- Two edges that agree on everything except possibly the speed. -/
def SameExceptSpeed (a b : DirectedEdge) : Prop :=
  a.use = b.use ∧ a.classification = b.classification ∧ a.forwardaccess = b.forwardaccess ∧
    a.reverseaccess = b.reverseaccess ∧ a.link = b.link ∧ a.roundabout = b.roundabout ∧
    a.sign = b.sign ∧ a.surface = b.surface ∧ a.speed_type = b.speed_type ∧
    a.length = b.length ∧ a.leaves_tile = b.leaves_tile ∧ a.other_fields = b.other_fields

theorem set_speed_speed (e : DirectedEdge) (s : Nat) : (e.set_speed s).speed = s := rfl

theorem set_speed_use (e : DirectedEdge) (s : Nat) : (e.set_speed s).use = e.use := rfl

theorem set_speed_roundabout (e : DirectedEdge) (s : Nat) :
    (e.set_speed s).roundabout = e.roundabout := rfl

theorem set_speed_surface (e : DirectedEdge) (s : Nat) :
    (e.set_speed s).surface = e.surface := rfl

theorem set_speed_classification (e : DirectedEdge) (s : Nat) :
    (e.set_speed s).classification = e.classification := rfl

theorem set_speed_set_speed (e : DirectedEdge) (a b : Nat) :
    (e.set_speed a).set_speed b = e.set_speed b := rfl

theorem set_speed_self (e : DirectedEdge) : e.set_speed e.speed = e := rfl

theorem sameExceptSpeed_of_set_speed (e : DirectedEdge) (s : Nat) :
    SameExceptSpeed (e.set_speed s) e :=
  ⟨rfl, rfl, rfl, rfl, rfl, rfl, rfl, rfl, rfl, rfl, rfl, rfl⟩

namespace SpeedAssigner

theorem urbanStep_shape (e : DirectedEdge) (d : Nat) (L : List Nat) :
    ∃ v, urbanStep e d L = e.set_speed v := by
  unfold urbanStep
  split_ifs
  · exact ⟨_, rfl⟩
  · exact ⟨e.speed, rfl⟩

theorem roundaboutStep_shape (e : DirectedEdge) : ∃ v, roundaboutStep e = e.set_speed v := by
  unfold roundaboutStep
  split_ifs
  · exact ⟨_, rfl⟩
  · exact ⟨e.speed, rfl⟩

theorem serviceStep_shape (e : DirectedEdge) : ∃ v, serviceStep e = e.set_speed v := by
  unfold serviceStep
  split_ifs <;> exact ⟨_, rfl⟩

theorem surfaceStep_shape (e : DirectedEdge) : ∃ v, surfaceStep e = e.set_speed v := by
  unfold surfaceStep
  split_ifs
  · exact ⟨_, rfl⟩
  · exact ⟨e.speed, rfl⟩

theorem HeuristicUpdate_shape (e : DirectedEdge) (d : Nat) (L : List Nat) (i : Bool) :
    ∃ v, HeuristicUpdate e d L i = e.set_speed v := by
  unfold HeuristicUpdate
  split_ifs <;>
    first
      | exact ⟨_, rfl⟩
      | exact ⟨e.speed, rfl⟩
      | (obtain ⟨a, ha⟩ := urbanStep_shape e d L
         obtain ⟨b, hb⟩ := roundaboutStep_shape (urbanStep e d L)
         obtain ⟨c, hc⟩ := serviceStep_shape (roundaboutStep (urbanStep e d L))
         obtain ⟨f, hf⟩ := surfaceStep_shape (serviceStep (roundaboutStep (urbanStep e d L)))
         refine ⟨f, ?_⟩
         rw [hf, hc, hb, ha]
         rfl)

theorem assign_shape (found : SpeedTable × SpeedTable) (e : DirectedEdge) (d : Nat) :
    ∃ v, (assign found e d).2 = e.set_speed v := by
  simp only [assign]
  split_ifs <;> exact ⟨_, rfl⟩

theorem FromConfig_shape (tables : TableRegistry) (e : DirectedEdge) (d : Nat)
    (country state : String) :
    ∃ v, (FromConfig tables e d country state).2 = e.set_speed v := by
  unfold FromConfig
  split_ifs
  · exact ⟨e.speed, rfl⟩
  · cases hl : lookupTables tables country state <;> simp only [hl]
    · exact ⟨e.speed, rfl⟩
    · exact assign_shape _ _ _

theorem UpdateSpeed_shape (tables : TableRegistry) (e : DirectedEdge) (d : Nat)
    (L : List Nat) (i : Bool) (country state : String) :
    ∃ v, UpdateSpeed tables e d L i country state = e.set_speed v := by
  unfold UpdateSpeed
  rcases he : tables.isEmpty
  · simp only [Bool.false_eq_true, if_false]
    obtain ⟨v, hv⟩ := FromConfig_shape tables e d country state
    rcases hfc : FromConfig tables e d country state with ⟨b, e2⟩
    rw [hfc] at hv
    cases b
    · have hv2 : e2 = e.set_speed v := hv
      subst hv2
      obtain ⟨w, hw⟩ := HeuristicUpdate_shape (e.set_speed v) d L i
      refine ⟨w, ?_⟩
      show HeuristicUpdate (e.set_speed v) d L i = e.set_speed w
      rw [hw]
      rfl
    · exact ⟨v, hv⟩
  · simp only [if_true]
    exact HeuristicUpdate_shape _ _ _ _

theorem assign_false (found : SpeedTable × SpeedTable) (e : DirectedEdge) (density : Nat)
    (h : (assign found e density).1 = false) : assign found e density = (false, e) := by
  simp only [assign] at h ⊢
  split_ifs at h ⊢ <;> simp_all

theorem FromConfig_false (tables : TableRegistry) (e : DirectedEdge) (density : Nat)
    (country state : String)
    (h : (FromConfig tables e density country state).1 = false) :
    FromConfig tables e density country state = (false, e) := by
  unfold FromConfig at h ⊢
  split_ifs at h ⊢
  · rfl
  · cases hl : lookupTables tables country state <;> simp only [hl] at h ⊢
    exact assign_false _ _ _ h

/-- C1: with a non-empty registry, a successful FromConfig resolution is
the final word on the edge and no heuristic step runs; with an empty
registry or a failed resolution, the heuristic waterfall of UpdateSpeed
runs unconditionally on the (untouched) edge. -/
theorem updateSpeed_config_exclusive (tables : TableRegistry) (e : DirectedEdge)
    (density : Nat) (L : List Nat) (itc : Bool) (country state : String) :
    (tables ≠ [] → (FromConfig tables e density country state).1 = true →
      UpdateSpeed tables e density L itc country state =
        (FromConfig tables e density country state).2)
    ∧ ((tables = [] ∨ (FromConfig tables e density country state).1 = false) →
      UpdateSpeed tables e density L itc country state =
        HeuristicUpdate e density L itc) := by
  constructor
  · intro hne htrue
    unfold UpdateSpeed
    have hni : tables.isEmpty = false := by
      cases tables
      · exact absurd rfl hne
      · rfl
    rw [hni]
    simp only [Bool.false_eq_true, if_false]
    rcases hfc : FromConfig tables e density country state with ⟨b, e2⟩
    rw [hfc] at htrue
    simp only at htrue
    subst htrue
    rfl
  · intro hcase
    unfold UpdateSpeed
    rcases hcase with rfl | hfalse
    · rfl
    · rcases he : tables.isEmpty
      · simp only [Bool.false_eq_true, if_false]
        rw [FromConfig_false tables e density country state hfalse]
      · simp only [if_true]

/-- C1 witness: a registry entry resolves a plain motorway way, so
UpdateSpeed returns the FromConfig result; with the empty registry the
heuristic runs. -/
theorem updateSpeed_config_exclusive_witness :
    UpdateSpeed sampleRegistry sampleEdge 9 [40, 40, 40, 40, 40, 40, 40, 40] true "us" "pa" =
      (FromConfig sampleRegistry sampleEdge 9 "us" "pa").2
    ∧ UpdateSpeed [] sampleEdge 9 [40, 40, 40, 40, 40, 40, 40, 40] true "us" "pa" =
      HeuristicUpdate sampleEdge 9 [40, 40, 40, 40, 40, 40, 40, 40] true :=
  ⟨(updateSpeed_config_exclusive sampleRegistry sampleEdge 9
      [40, 40, 40, 40, 40, 40, 40, 40] true "us" "pa").1 (by decide) (by decide),
   (updateSpeed_config_exclusive [] sampleEdge 9
      [40, 40, 40, 40, 40, 40, 40, 40] true "us" "pa").2 (Or.inl rfl)⟩

/-- C2: FromConfig returns false with the edge untouched for ferries,
rail ferries, edges without vehicular access and when no registry key
matches; when keys are present, the first hit in the order exact
country.state, country-only, global default is the entry used. -/
theorem fromConfig_exclusions_and_lookup_order (tables : TableRegistry) (e : DirectedEdge)
    (density : Nat) (country state : String) :
    ((e.use = Use.kFerry ∨ e.use = Use.kRailFerry ∨
        (e.forwardaccess ||| e.reverseaccess) &&& kVehicularAccess = 0) →
      FromConfig tables e density country state = (false, e))
    ∧ (mapFind tables (country ++ "." ++ state) = none →
       mapFind tables (country ++ ".") = none →
       mapFind tables "" = none →
       FromConfig tables e density country state = (false, e))
    ∧ (∀ v, mapFind tables (country ++ "." ++ state) = some v →
        ¬(e.use = Use.kFerry ∨ e.use = Use.kRailFerry ∨
          (e.forwardaccess ||| e.reverseaccess) &&& kVehicularAccess = 0) →
        FromConfig tables e density country state = assign v e density)
    ∧ (∀ v, mapFind tables (country ++ "." ++ state) = none →
        mapFind tables (country ++ ".") = some v →
        ¬(e.use = Use.kFerry ∨ e.use = Use.kRailFerry ∨
          (e.forwardaccess ||| e.reverseaccess) &&& kVehicularAccess = 0) →
        FromConfig tables e density country state = assign v e density)
    ∧ (∀ v, mapFind tables (country ++ "." ++ state) = none →
        mapFind tables (country ++ ".") = none →
        mapFind tables "" = some v →
        ¬(e.use = Use.kFerry ∨ e.use = Use.kRailFerry ∨
          (e.forwardaccess ||| e.reverseaccess) &&& kVehicularAccess = 0) →
        FromConfig tables e density country state = assign v e density) := by
  refine ⟨?_, ?_, ?_, ?_, ?_⟩
  · intro hexcl
    unfold FromConfig
    simp [hexcl]
  · intro h1 h2 h3
    unfold FromConfig lookupTables
    simp [h1, h2, h3]
  · intro v h1 hexcl
    unfold FromConfig lookupTables
    simp [h1, hexcl]
  · intro v h1 h2 hexcl
    unfold FromConfig lookupTables
    simp [h1, h2, hexcl]
  · intro v h1 h2 h3 hexcl
    unfold FromConfig lookupTables
    simp [h1, h2, h3, hexcl]

/-- C2 witness: a ferry edge is not resolved; a query missing all keys
is not resolved; the spec's fallback examples, query (us, ca) against
keys us.pa, us., "" uses the country-only entry and query (fr, "")
uses the global default. -/
theorem fromConfig_exclusions_and_lookup_order_witness :
    FromConfig sampleRegistry { sampleEdge with use := Use.kFerry } 5 "us" "pa" =
      (false, { sampleEdge with use := Use.kFerry })
    ∧ FromConfig [("us.pa", (sampleUrban, sampleRural))] sampleEdge 5 "fr" "ca" =
      (false, sampleEdge)
    ∧ FromConfig sampleRegistry sampleEdge 5 "us" "pa" =
      assign (sampleUrban, sampleRural) sampleEdge 5
    ∧ FromConfig sampleRegistry sampleEdge 5 "us" "ca" =
      assign (sampleRural, sampleRural) sampleEdge 5
    ∧ FromConfig sampleRegistry sampleEdge 5 "fr" "" =
      assign (sampleUrban, sampleUrban) sampleEdge 5 :=
  ⟨(fromConfig_exclusions_and_lookup_order sampleRegistry
      { sampleEdge with use := Use.kFerry } 5 "us" "pa").1 (by decide),
   (fromConfig_exclusions_and_lookup_order [("us.pa", (sampleUrban, sampleRural))]
      sampleEdge 5 "fr" "ca").2.1 (by decide) (by decide) (by decide),
   (fromConfig_exclusions_and_lookup_order sampleRegistry sampleEdge 5 "us" "pa").2.2.1
      (sampleUrban, sampleRural) (by decide) (by decide),
   (fromConfig_exclusions_and_lookup_order sampleRegistry sampleEdge 5 "us" "ca").2.2.2.1
      (sampleRural, sampleRural) (by decide) (by decide) (by decide),
   (fromConfig_exclusions_and_lookup_order sampleRegistry sampleEdge 5 "fr" "").2.2.2.2
      (sampleUrban, sampleUrban) (by decide) (by decide) (by decide) (by decide)⟩

/-- C3: once FromConfig finds an entry for a non-excluded edge, the
rural table is selected for density at most 8 and the urban one above
8, and the first applicable branch is terminal: the four service uses
assign service 0..3; a link with rank at least 5 is unresolved with
the edge untouched, a link with rank below 5 gets link_exiting with
exit signage and link_turning without; a roundabout gets
roundabout at the rank; anything else gets way at the rank. -/
theorem fromConfig_bucket_and_branches (tables : TableRegistry) (e : DirectedEdge)
    (density : Nat) (country state : String) (pair : SpeedTable × SpeedTable)
    (hexcl : ¬(e.use = Use.kFerry ∨ e.use = Use.kRailFerry ∨
        (e.forwardaccess ||| e.reverseaccess) &&& kVehicularAccess = 0))
    (hfound : lookupTables tables country state = some pair)
    (hwf1 : pair.1.WF) (hwf2 : pair.2.WF) :
    (e.use = Use.kDriveway → FromConfig tables e density country state =
      (true, e.set_speed ((if density ≤ 8 then pair.2 else pair.1).service.getD 0 0)))
    ∧ (e.use = Use.kAlley → FromConfig tables e density country state =
      (true, e.set_speed ((if density ≤ 8 then pair.2 else pair.1).service.getD 1 0)))
    ∧ (e.use = Use.kParkingAisle → FromConfig tables e density country state =
      (true, e.set_speed ((if density ≤ 8 then pair.2 else pair.1).service.getD 2 0)))
    ∧ (e.use = Use.kDriveThru → FromConfig tables e density country state =
      (true, e.set_speed ((if density ≤ 8 then pair.2 else pair.1).service.getD 3 0)))
    ∧ (e.use ≠ Use.kDriveway → e.use ≠ Use.kAlley → e.use ≠ Use.kParkingAisle →
        e.use ≠ Use.kDriveThru →
        ((e.link = true → e.classification.rank ≥ 5 →
            FromConfig tables e density country state = (false, e))
        ∧ (e.link = true → e.classification.rank < 5 → e.sign = true →
            FromConfig tables e density country state = (true, e.set_speed
              ((if density ≤ 8 then pair.2 else pair.1).link_exiting.getD
                e.classification.rank 0)))
        ∧ (e.link = true → e.classification.rank < 5 → e.sign = false →
            FromConfig tables e density country state = (true, e.set_speed
              ((if density ≤ 8 then pair.2 else pair.1).link_turning.getD
                e.classification.rank 0)))
        ∧ (e.link = false → e.roundabout = true →
            FromConfig tables e density country state = (true, e.set_speed
              ((if density ≤ 8 then pair.2 else pair.1).roundabout.getD
                e.classification.rank 0)))
        ∧ (e.link = false → e.roundabout = false →
            FromConfig tables e density country state = (true, e.set_speed
              ((if density ≤ 8 then pair.2 else pair.1).way.getD
                e.classification.rank 0))))) := by
  have hlen : (if density ≤ 8 then pair.2 else pair.1).link_exiting.length = 5 := by
    split_ifs
    · exact hwf2.2.1
    · exact hwf1.2.1
  unfold FromConfig
  simp only [hexcl, hfound, if_neg, if_false]
  refine ⟨?_, ?_, ?_, ?_, ?_⟩
  · intro hu; simp [assign, hu]
  · intro hu; simp [assign, hu]
  · intro hu; simp [assign, hu]
  · intro hu; simp [assign, hu]
  · intro h1 h2 h3 h4
    refine ⟨?_, ?_, ?_, ?_, ?_⟩
    · intro hl hrc
      simp [assign, h1, h2, h3, h4, hl, hlen, hrc]
    · intro hl hrc hs
      simp [assign, h1, h2, h3, h4, hl, hlen, Nat.not_le.mpr hrc, hs]
    · intro hl hrc hs
      simp [assign, h1, h2, h3, h4, hl, hlen, Nat.not_le.mpr hrc, hs]
    · intro hl hr
      simp [assign, h1, h2, h3, h4, hl, hr]
    · intro hl hr
      simp [assign, h1, h2, h3, h4, hl, hr]

/-- C3 witness: a driveway edge gets the rural service speed 61 at
density 8 and the urban service speed 29 at density 9 (inclusive-low
boundary); a residential link (rank 6) stays unresolved; a signed
motorway link gets link_exiting 9; a roundabout way gets roundabout 21. -/
theorem fromConfig_bucket_and_branches_witness :
    FromConfig sampleRegistry { sampleEdge with use := Use.kDriveway } 8 "us" "pa" =
      (true, ({ sampleEdge with use := Use.kDriveway }).set_speed 61)
    ∧ FromConfig sampleRegistry { sampleEdge with use := Use.kDriveway } 9 "us" "pa" =
      (true, ({ sampleEdge with use := Use.kDriveway }).set_speed 29)
    ∧ FromConfig sampleRegistry
        { sampleEdge with link := true, classification := RoadClass.kResidential } 9 "us" "pa" =
      (false, { sampleEdge with link := true, classification := RoadClass.kResidential })
    ∧ FromConfig sampleRegistry { sampleEdge with link := true, sign := true } 9 "us" "pa" =
      (true, ({ sampleEdge with link := true, sign := true }).set_speed 9)
    ∧ FromConfig sampleRegistry { sampleEdge with roundabout := true } 9 "us" "pa" =
      (true, ({ sampleEdge with roundabout := true }).set_speed 21) := by
  refine ⟨?_, ?_, ?_, ?_, ?_⟩
  · exact ((fromConfig_bucket_and_branches sampleRegistry
      { sampleEdge with use := Use.kDriveway } 8 "us" "pa" (sampleUrban, sampleRural)
      (by decide) rfl (by decide) (by decide)).1 rfl).trans (by decide)
  · exact ((fromConfig_bucket_and_branches sampleRegistry
      { sampleEdge with use := Use.kDriveway } 9 "us" "pa" (sampleUrban, sampleRural)
      (by decide) rfl (by decide) (by decide)).1 rfl).trans (by decide)
  · exact ((fromConfig_bucket_and_branches sampleRegistry
      { sampleEdge with link := true, classification := RoadClass.kResidential } 9 "us" "pa"
      (sampleUrban, sampleRural) (by decide) rfl (by decide) (by decide)).2.2.2.2
      (by decide) (by decide) (by decide) (by decide)).1 rfl (by decide)
  · exact (((fromConfig_bucket_and_branches sampleRegistry
      { sampleEdge with link := true, sign := true } 9 "us" "pa"
      (sampleUrban, sampleRural) (by decide) rfl (by decide) (by decide)).2.2.2.2
      (by decide) (by decide) (by decide) (by decide)).2.1 rfl (by decide) rfl).trans
      (by decide)
  · exact (((fromConfig_bucket_and_branches sampleRegistry
      { sampleEdge with roundabout := true } 9 "us" "pa"
      (sampleUrban, sampleRural) (by decide) rfl (by decide) (by decide)).2.2.2.2
      (by decide) (by decide) (by decide) (by decide)).2.2.2.1 rfl rfl).trans
      (by decide)

/-- C4: when no terminal heuristic branch fires, the final speed is the
cumulative pipeline in order urban override (density above 8), then
roundabout halving with rounding, then the fixed service constants,
then surface halving by integer division; with density above 8, urban
value 50 at the edge's class and the roundabout flag (on a smooth
plain way) the result is 25. -/
theorem heuristic_cumulative_steps (e : DirectedEdge) (density : Nat) (L : List Nat)
    (itc : Bool) (country state : String) (h1 : e.link = false)
    (h2 : e.speed_type ≠ SpeedType.kTagged)
    (h3 : e.use ≠ Use.kRailFerry) (h4 : e.use ≠ Use.kFerry) :
    ((UpdateSpeed [] e density L itc country state).speed =
      (let s1 := if density > 8 then L.getD e.classification.rank 0 else e.speed
       let s2 := if e.roundabout then mulRoundaboutFactor s1 else s1
       let s3 := if e.use = Use.kParkingAisle then kParkingAisleSpeed
                 else if e.use = Use.kDriveway then kDrivewaySpeed
                 else if e.use = Use.kDriveThru then kDriveThruSpeed
                 else s2
       if e.surface ≥ kPavedRough then s3 / 2 else s3))
    ∧ (density > 8 → L.getD e.classification.rank 0 = 50 → e.roundabout = true →
        e.use ≠ Use.kParkingAisle → e.use ≠ Use.kDriveway → e.use ≠ Use.kDriveThru →
        e.surface < kPavedRough →
        (UpdateSpeed [] e density L itc country state).speed = 25) := by
  have hmain : (UpdateSpeed [] e density L itc country state).speed =
      (let s1 := if density > 8 then L.getD e.classification.rank 0 else e.speed
       let s2 := if e.roundabout then mulRoundaboutFactor s1 else s1
       let s3 := if e.use = Use.kParkingAisle then kParkingAisleSpeed
                 else if e.use = Use.kDriveway then kDrivewaySpeed
                 else if e.use = Use.kDriveThru then kDriveThruSpeed
                 else s2
       if e.surface ≥ kPavedRough then s3 / 2 else s3) := by
    show (HeuristicUpdate e density L itc).speed = _
    unfold HeuristicUpdate
    simp only [h1, h2, h3, h4, Bool.false_eq_true, if_false]
    by_cases hd : density > 8 <;> by_cases hr : e.roundabout = true <;>
      by_cases hp : e.use = Use.kParkingAisle <;> by_cases hw : e.use = Use.kDriveway <;>
      by_cases ht : e.use = Use.kDriveThru <;> by_cases hs : e.surface ≥ kPavedRough <;>
      simp [urbanStep, roundaboutStep, serviceStep, surfaceStep, hd, hr, hp, hw, ht, hs,
        set_speed_speed, set_speed_use, set_speed_roundabout, set_speed_surface,
        set_speed_classification]
  refine ⟨hmain, ?_⟩
  intro hd hv hr hp hw ht hs
  rw [hmain]
  simp only [List.getD_eq_getElem?_getD] at hv
  simp [hd, hv, hr, hp, hw, ht, Nat.not_le.mpr hs, mulRoundaboutFactor]

/-- C4 witness: a smooth plain roundabout way at density 20 with urban
table value 50 for its class ends at speed 25. -/
theorem heuristic_cumulative_steps_witness :
    (UpdateSpeed [] { sampleEdge with roundabout := true, speed := 60 } 20
      [50, 50, 50, 50, 50, 50, 50, 50] true "" "").speed = 25 :=
  (heuristic_cumulative_steps { sampleEdge with roundabout := true, speed := 60 } 20
    [50, 50, 50, 50, 50, 50, 50, 50] true "" "" rfl (by decide) (by decide) (by decide)).2
    (by decide) (by decide) rfl (by decide) (by decide) (by decide) (by decide)

/-- C5: the link branch of the heuristic is terminal; a turn channel
with inference on gets the 1.25 rounding, a non-tagged ramp the 0.8
factor exactly for motorway, trunk or primary above density 8 and the
0.85 factor otherwise, and every other link keeps its speed. -/
theorem heuristic_link_terminal (e : DirectedEdge) (density : Nat) (L : List Nat)
    (itc : Bool) (country state : String) (h : e.link = true) :
    UpdateSpeed [] e density L itc country state =
      e.set_speed (
        if e.use = Use.kTurnChannel ∧ itc then mulTurnChannelFactor e.speed
        else if e.use = Use.kRamp ∧ e.speed_type ≠ SpeedType.kTagged then
          if (e.classification = RoadClass.kMotorway ∨ e.classification = RoadClass.kTrunk ∨
              e.classification = RoadClass.kPrimary) ∧ density > 8 then
            mulRampDensityFactor e.speed
          else mulRampFactor e.speed
        else e.speed) := by
  show HeuristicUpdate e density L itc = _
  unfold HeuristicUpdate
  simp only [h, if_true]
  split_ifs <;> simp_all

/-- C5 witness: a non-tagged motorway ramp of speed 100 becomes 80 at
density 9 and 85 at density 5; a turn channel of speed 60 with
inference on becomes 75. -/
theorem heuristic_link_terminal_witness :
    UpdateSpeed [] { sampleEdge with link := true, use := Use.kRamp } 9 [] true "" "" =
      ({ sampleEdge with link := true, use := Use.kRamp }).set_speed 80
    ∧ UpdateSpeed [] { sampleEdge with link := true, use := Use.kRamp } 5 [] true "" "" =
      ({ sampleEdge with link := true, use := Use.kRamp }).set_speed 85
    ∧ UpdateSpeed [] { sampleEdge with link := true, use := Use.kTurnChannel, speed := 60 }
        5 [] true "" "" =
      ({ sampleEdge with link := true, use := Use.kTurnChannel, speed := 60 }).set_speed 75 :=
  ⟨(heuristic_link_terminal { sampleEdge with link := true, use := Use.kRamp } 9 [] true
      "" "" rfl).trans (by decide),
   (heuristic_link_terminal { sampleEdge with link := true, use := Use.kRamp } 5 [] true
      "" "" rfl).trans (by decide),
   (heuristic_link_terminal { sampleEdge with link := true, use := Use.kTurnChannel, speed := 60 }
      5 [] true "" "" rfl).trans (by decide)⟩

/-- C6: a non-link edge with tagged speed is only adjusted by the
surface rule and the branch is terminal: on rough surfaces subtract 10
at speed 50 or above, else subtract 5 above 15, else nothing; on
better surfaces nothing. -/
theorem heuristic_tagged_surface_only (e : DirectedEdge) (density : Nat) (L : List Nat)
    (itc : Bool) (country state : String) (h1 : e.link = false)
    (h2 : e.speed_type = SpeedType.kTagged) :
    UpdateSpeed [] e density L itc country state =
      (if e.surface ≥ kPavedRough then
        if e.speed ≥ 50 then e.set_speed (e.speed - 10)
        else if e.speed > 15 then e.set_speed (e.speed - 5)
        else e
      else e) := by
  show HeuristicUpdate e density L itc = _
  unfold HeuristicUpdate
  simp [h1, h2]

/-- C6 witness: tagged speeds 55, 40 and 10 on a rough-paved surface
become 45, 35 and stay 10 respectively. -/
theorem heuristic_tagged_surface_only_witness :
    UpdateSpeed []
      { sampleEdge with speed_type := SpeedType.kTagged, surface := 2, speed := 55 }
      5 [] true "" "" =
      ({ sampleEdge with speed_type := SpeedType.kTagged, surface := 2, speed := 55 }).set_speed 45
    ∧ UpdateSpeed []
      { sampleEdge with speed_type := SpeedType.kTagged, surface := 2, speed := 40 }
      5 [] true "" "" =
      ({ sampleEdge with speed_type := SpeedType.kTagged, surface := 2, speed := 40 }).set_speed 35
    ∧ UpdateSpeed []
      { sampleEdge with speed_type := SpeedType.kTagged, surface := 2, speed := 10 }
      5 [] true "" "" =
      { sampleEdge with speed_type := SpeedType.kTagged, surface := 2, speed := 10 } :=
  ⟨(heuristic_tagged_surface_only
      { sampleEdge with speed_type := SpeedType.kTagged, surface := 2, speed := 55 }
      5 [] true "" "" rfl rfl).trans (by decide),
   (heuristic_tagged_surface_only
      { sampleEdge with speed_type := SpeedType.kTagged, surface := 2, speed := 40 }
      5 [] true "" "" rfl rfl).trans (by decide),
   (heuristic_tagged_surface_only
      { sampleEdge with speed_type := SpeedType.kTagged, surface := 2, speed := 10 }
      5 [] true "" "" rfl rfl).trans (by decide)⟩

/-- C7: registry construction is a total function; every document the
record loop rejects, an absent config path, an unreadable file and a
syntax error all end with the empty registry; internally an array
member of the wrong length fails with an error naming the field and
its required length. -/
theorem registry_error_handling :
    (∀ doc msg, buildRegistry doc = Except.error msg →
        construct (ConfigInput.parsed doc) = [])
    ∧ construct ConfigInput.noConfig = []
    ∧ (∀ msg, construct (ConfigInput.ioError msg) = [])
    ∧ construct ConfigInput.parseError = []
    ∧ (∀ obj name n xs, JValue.getMember obj name = Except.ok (JValue.arr xs) →
        xs.length ≠ n →
        SpeedTable.parseField obj name n =
          Except.error (name ++ " must have " ++ toString n ++ " speeds")) := by
  refine ⟨?_, rfl, fun msg => rfl, rfl, ?_⟩
  · intro doc msg h
    simp only [construct]
    rw [h]
  · intro obj name n xs hm hl
    unfold SpeedTable.parseField
    rw [hm]
    show (if xs.length ≠ n then
        Except.error (name ++ " must have " ++ toString n ++ " speeds")
      else xs.mapM JValue.getUint) =
      Except.error (name ++ " must have " ++ toString n ++ " speeds")
    rw [if_pos hl]

/-- C7 witness: a non-array document, a missing path, an io error and a
syntax error each give the empty registry; a 1-element way array is
rejected naming the field and the length 8. -/
theorem registry_error_handling_witness :
    construct (ConfigInput.parsed (JValue.num 0)) = []
    ∧ construct ConfigInput.noConfig = []
    ∧ construct (ConfigInput.ioError "no such file") = []
    ∧ construct ConfigInput.parseError = []
    ∧ SpeedTable.parseField (JValue.obj [("way", JValue.arr [JValue.num 1])]) "way" 8 =
        Except.error ("way must have " ++ toString 8 ++ " speeds") :=
  ⟨registry_error_handling.1 (JValue.num 0) "must be a json array" rfl,
   registry_error_handling.2.1,
   registry_error_handling.2.2.1 "no such file",
   registry_error_handling.2.2.2.1,
   registry_error_handling.2.2.2.2 (JValue.obj [("way", JValue.arr [JValue.num 1])]) "way" 8
     [JValue.num 1] rfl (by decide)⟩

/-- C9: neither UpdateSpeed nor FromConfig modifies any edge attribute
other than the speed. -/
theorem updateSpeed_frame (tables : TableRegistry) (e : DirectedEdge) (density : Nat)
    (L : List Nat) (itc : Bool) (country state : String) :
    SameExceptSpeed (UpdateSpeed tables e density L itc country state) e
    ∧ SameExceptSpeed (FromConfig tables e density country state).2 e := by
  obtain ⟨v, hv⟩ := UpdateSpeed_shape tables e density L itc country state
  obtain ⟨w, hw⟩ := FromConfig_shape tables e density country state
  rw [hv, hw]
  exact ⟨sameExceptSpeed_of_set_speed e v, sameExceptSpeed_of_set_speed e w⟩

/-- C10: for a well-formed SpeedTable the unchecked way and roundabout
reads of FromConfig are in bounds exactly for ranks up to 7 and the
guarded link arrays for ranks below 5; every classification rank is at
most 7; the unchecked urban_rc_speed read of the heuristic is in
bounds for every reachable edge exactly when the caller supplies at
least 8 entries; and when the read happens at index i with the later
steps idle the heuristic result is the table value at i. -/
theorem table_access_bounds (L : List Nat) :
    (∀ st : SpeedTable, st.WF → ∀ rc : Nat,
        (rc < st.way.length ↔ rc ≤ 7) ∧ (rc < st.roundabout.length ↔ rc ≤ 7) ∧
          (rc < st.link_exiting.length ↔ rc < 5))
    ∧ (∀ c : RoadClass, c.rank ≤ 7)
    ∧ ((∀ e density i, heuristicUrbanReadIndex e density = some i → i < L.length) ↔
        8 ≤ L.length)
    ∧ (∀ e density i itc, heuristicUrbanReadIndex e density = some i →
        e.roundabout = false → e.use ≠ Use.kParkingAisle → e.use ≠ Use.kDriveway →
        e.use ≠ Use.kDriveThru → e.surface < kPavedRough →
        HeuristicUpdate e density L itc = e.set_speed (L.getD i 0)) := by
  have hrank : ∀ c : RoadClass, c.rank ≤ 7 := by
    intro c
    cases c <;> simp [RoadClass.rank]
  refine ⟨?_, hrank, ⟨?_, ?_⟩, ?_⟩
  · intro st hwf rc
    obtain ⟨h1, h2, h3, h4, h5⟩ := hwf
    rw [h1, h2, h4]
    omega
  · intro h
    have h7 := h { sampleEdge with classification := RoadClass.kServiceOther } 9 7 rfl
    omega
  · intro hlen e density i hi
    unfold heuristicUrbanReadIndex at hi
    split_ifs at hi
    have hi2 : e.classification.rank = i := by
      injection hi
    have := hrank e.classification
    omega
  · intro e density i itc hi hr hp hw ht hs
    unfold heuristicUrbanReadIndex at hi
    split_ifs at hi with hl htag hrf hf hd
    have hi2 : i = e.classification.rank := by
      injection hi with hinj
      exact hinj.symm
    subst hi2
    unfold HeuristicUpdate
    simp only [hl, htag, hrf, hf, Bool.false_eq_true, if_false]
    simp [urbanStep, roundaboutStep, serviceStep, surfaceStep, hd, hr, hp, hw, ht,
      Nat.not_le.mpr hs, set_speed_use, set_speed_roundabout, set_speed_surface]

/-- C10 witness: for the sample table rank 0 is within the 8-slot way
array; rank of the lowest class is 7; with an 8-entry urban table the
read at the highest rank 7 is in bounds; and for the sample edge at
density 9 the heuristic returns entry 0 of the urban table. -/
theorem table_access_bounds_witness :
    (0 < sampleUrban.way.length)
    ∧ RoadClass.kServiceOther.rank ≤ 7
    ∧ (7 < ([40, 40, 40, 40, 40, 40, 40, 40] : List Nat).length)
    ∧ HeuristicUpdate sampleEdge 9 [40, 40, 40, 40, 40, 40, 40, 40] true =
        sampleEdge.set_speed (([40, 40, 40, 40, 40, 40, 40, 40] : List Nat).getD 0 0) :=
  ⟨((table_access_bounds [40, 40, 40, 40, 40, 40, 40, 40]).1 sampleUrban (by decide) 0).1.mpr
      (by decide),
   (table_access_bounds [40, 40, 40, 40, 40, 40, 40, 40]).2.1 RoadClass.kServiceOther,
   ((table_access_bounds [40, 40, 40, 40, 40, 40, 40, 40]).2.2.1.mpr (by decide))
      { sampleEdge with classification := RoadClass.kServiceOther } 9 7 rfl,
   (table_access_bounds [40, 40, 40, 40, 40, 40, 40, 40]).2.2.2 sampleEdge 9 0 true rfl rfl
      (by decide) (by decide) (by decide) (by decide)⟩

end SpeedAssigner

theorem except_bind_ok {α β : Type} (a : α) (f : α → Except String β) :
    (Except.ok a : Except String α) >>= f = f a := rfl

theorem mapM_getUint_map_num (l : List Nat) :
    (l.map JValue.num).mapM JValue.getUint = Except.ok l := by
  induction l with
  | nil => rfl
  | cons a as ih =>
    rw [List.map_cons, List.mapM_cons]
    rw [show JValue.getUint (JValue.num a) = Except.ok a from rfl]
    rw [except_bind_ok, ih]
    rfl

theorem parseField_ok (obj : JValue) (name : String) (l : List Nat) (n : Nat)
    (hm : obj.getMember name = Except.ok (JValue.arr (l.map JValue.num)))
    (hl : l.length = n) :
    SpeedTable.parseField obj name n = Except.ok l := by
  unfold SpeedTable.parseField
  rw [hm]
  show (if (l.map JValue.num).length ≠ n then
      Except.error (name ++ " must have " ++ toString n ++ " speeds")
    else (l.map JValue.num).mapM JValue.getUint) = Except.ok l
  rw [if_neg (by simp [hl]), mapM_getUint_map_num]

theorem getMember_toJson_way (st : SpeedTable) :
    st.toJson.getMember "way" = Except.ok (JValue.arr (st.way.map JValue.num)) := rfl

theorem getMember_toJson_link_exiting (st : SpeedTable) :
    st.toJson.getMember "link_exiting" =
      Except.ok (JValue.arr (st.link_exiting.map JValue.num)) := rfl

theorem getMember_toJson_link_turning (st : SpeedTable) :
    st.toJson.getMember "link_turning" =
      Except.ok (JValue.arr (st.link_turning.map JValue.num)) := rfl

theorem getMember_toJson_roundabout (st : SpeedTable) :
    st.toJson.getMember "roundabout" =
      Except.ok (JValue.arr (st.roundabout.map JValue.num)) := rfl

theorem getMember_toJson_driveway (st : SpeedTable) :
    st.toJson.getMember "driveway" = Except.ok (JValue.num (st.service.getD 0 0)) := rfl

theorem getMember_toJson_alley (st : SpeedTable) :
    st.toJson.getMember "alley" = Except.ok (JValue.num (st.service.getD 1 0)) := rfl

theorem getMember_toJson_parking_aisle (st : SpeedTable) :
    st.toJson.getMember "parking_aisle" = Except.ok (JValue.num (st.service.getD 2 0)) := rfl

theorem getMember_toJson_drive_through (st : SpeedTable) :
    st.toJson.getMember "drive-through" = Except.ok (JValue.num (st.service.getD 3 0)) := rfl

theorem ofJson_toJson (st : SpeedTable) (h : st.WF) :
    SpeedTable.ofJson st.toJson = Except.ok st := by
  obtain ⟨h1, h2, h3, h4, h5⟩ := h
  unfold SpeedTable.ofJson
  rw [parseField_ok _ _ _ _ (getMember_toJson_way st) h1, except_bind_ok,
    parseField_ok _ _ _ _ (getMember_toJson_link_exiting st) h2, except_bind_ok,
    parseField_ok _ _ _ _ (getMember_toJson_link_turning st) h3, except_bind_ok,
    parseField_ok _ _ _ _ (getMember_toJson_roundabout st) h4, except_bind_ok,
    getMember_toJson_driveway st, except_bind_ok,
    show JValue.getUint (JValue.num (st.service.getD 0 0)) =
      Except.ok (st.service.getD 0 0) from rfl, except_bind_ok,
    getMember_toJson_alley st, except_bind_ok,
    show JValue.getUint (JValue.num (st.service.getD 1 0)) =
      Except.ok (st.service.getD 1 0) from rfl, except_bind_ok,
    getMember_toJson_parking_aisle st, except_bind_ok,
    show JValue.getUint (JValue.num (st.service.getD 2 0)) =
      Except.ok (st.service.getD 2 0) from rfl, except_bind_ok,
    getMember_toJson_drive_through st, except_bind_ok,
    show JValue.getUint (JValue.num (st.service.getD 3 0)) =
      Except.ok (st.service.getD 3 0) from rfl, except_bind_ok]
  rcases st with ⟨way, le, lt, ra, sv⟩
  simp only at h5
  rcases sv with _ | ⟨a, sv⟩; · simp at h5
  rcases sv with _ | ⟨b, sv⟩; · simp at h5
  rcases sv with _ | ⟨c, sv⟩; · simp at h5
  rcases sv with _ | ⟨d, sv⟩; · simp at h5
  rcases sv with _ | ⟨x, sv⟩
  · rfl
  · simp at h5

theorem getMember_record_country (r : ConfigRecord) :
    r.toJson.getMember "iso3166-1" = Except.ok (JValue.str r.country) := rfl

theorem getMember_record_state (r : ConfigRecord) :
    r.toJson.getMember "iso3166-2" = Except.ok (JValue.str r.state) := rfl

theorem getMember_record_urban (r : ConfigRecord) :
    r.toJson.getMember "urban" = Except.ok r.urban.toJson := rfl

theorem getMember_record_rural (r : ConfigRecord) :
    r.toJson.getMember "rural" = Except.ok r.rural.toJson := rfl

theorem buildRecord_toJson (t : TableRegistry) (r : ConfigRecord)
    (hu : r.urban.WF) (hr : r.rural.WF) :
    SpeedAssigner.buildRecord t r.toJson = Except.ok (emplace t r.key (r.urban, r.rural)) := by
  unfold SpeedAssigner.buildRecord
  rw [getMember_record_country r, except_bind_ok,
    show JValue.getString (JValue.str r.country) = Except.ok r.country from rfl,
    except_bind_ok,
    getMember_record_state r, except_bind_ok,
    show JValue.getString (JValue.str r.state) = Except.ok r.state from rfl,
    except_bind_ok,
    getMember_record_urban r, except_bind_ok, ofJson_toJson r.urban hu, except_bind_ok,
    getMember_record_rural r, except_bind_ok, ofJson_toJson r.rural hr, except_bind_ok]
  rfl

theorem foldlM_buildRecord (records : List ConfigRecord)
    (h : ∀ r ∈ records, r.urban.WF ∧ r.rural.WF) :
    ∀ acc : TableRegistry,
      (records.map ConfigRecord.toJson).foldlM SpeedAssigner.buildRecord acc =
        Except.ok (records.foldl (fun t r => emplace t r.key (r.urban, r.rural)) acc) := by
  induction records with
  | nil => intro acc; rfl
  | cons r rs ih =>
    intro acc
    rw [List.map_cons, List.foldlM_cons,
      buildRecord_toJson acc r (h r (by simp)).1 (h r (by simp)).2, except_bind_ok,
      List.foldl_cons]
    exact ih (fun x hx => h x (by simp [hx])) _

theorem mapFind_eq_none (t : TableRegistry) (k : String) (h : k ∉ t.map Prod.fst) :
    mapFind t k = none := by
  induction t with
  | nil => rfl
  | cons kv rest ih =>
    rw [List.map_cons, List.mem_cons, not_or] at h
    unfold mapFind
    rw [if_neg (fun he => h.1 he.symm), ih h.2]

theorem foldl_emplace_eq (records : List ConfigRecord) :
    ∀ acc : TableRegistry,
      (acc.map Prod.fst ++ records.map ConfigRecord.key).Nodup →
      records.foldl (fun t r => emplace t r.key (r.urban, r.rural)) acc =
        acc ++ records.map (fun r => (r.key, (r.urban, r.rural))) := by
  induction records with
  | nil => intro acc h; simp
  | cons r rs ih =>
    intro acc h
    have hdisj : (acc.map Prod.fst).Disjoint ((r :: rs).map ConfigRecord.key) :=
      (List.nodup_append.mp (by simpa using h)).2.2
    have hnotin : r.key ∉ acc.map Prod.fst := by
      intro hmem
      exact hdisj hmem (by simp)
    have hemp : emplace acc r.key (r.urban, r.rural) =
        acc ++ [(r.key, (r.urban, r.rural))] := by
      unfold emplace
      rw [mapFind_eq_none acc r.key hnotin]
    rw [List.foldl_cons, hemp]
    have h2 : ((acc ++ [(r.key, (r.urban, r.rural))]).map Prod.fst ++
        rs.map ConfigRecord.key).Nodup := by
      rw [List.map_append, List.append_assoc]
      simpa using h
    rw [ih (acc ++ [(r.key, (r.urban, r.rural))]) h2]
    simp

theorem mapFind_map_entry (records : List ConfigRecord)
    (hk : (records.map ConfigRecord.key).Nodup) (r : ConfigRecord) (hr : r ∈ records) :
    mapFind (records.map fun x => (x.key, (x.urban, x.rural))) r.key =
      some (r.urban, r.rural) := by
  induction records with
  | nil => cases hr
  | cons a as ih =>
    rw [List.map_cons]
    unfold mapFind
    rcases List.mem_cons.mp hr with rfl | hmem
    · rw [if_pos rfl]
    · have hne : a.key ≠ r.key := by
        rw [List.map_cons, List.nodup_cons] at hk
        intro he
        exact hk.1 (he ▸ List.mem_map_of_mem ConfigRecord.key hmem)
      rw [if_neg hne]
      exact ih (by rw [List.map_cons, List.nodup_cons] at hk; exact hk.2) hmem

theorem construct_parsed_ok (doc : JValue) (t : TableRegistry)
    (h : SpeedAssigner.buildRegistry doc = Except.ok t) :
    SpeedAssigner.construct (SpeedAssigner.ConfigInput.parsed doc) = t := by
  simp only [SpeedAssigner.construct]
  rw [h]

theorem buildRegistry_records (records : List ConfigRecord)
    (h : ∀ r ∈ records, r.urban.WF ∧ r.rural.WF) :
    SpeedAssigner.buildRegistry (JValue.arr (records.map ConfigRecord.toJson)) =
      Except.ok (records.foldl (fun t r => emplace t r.key (r.urban, r.rural)) []) := by
  show (records.map ConfigRecord.toJson).foldlM SpeedAssigner.buildRecord [] = _
  exact foldlM_buildRecord records h []

/-- C8 (amended): for a well-formed configuration document whose
records have pairwise-distinct country.state keys, the registry has
exactly one entry per record under that key and each SpeedTable
round-trips field-for-field from input to lookup; with duplicate keys
the first record wins (see the counterexample). -/
theorem registry_roundtrip_distinct_keys (records : List ConfigRecord)
    (hwf : ∀ r ∈ records, r.urban.WF ∧ r.rural.WF)
    (hkeys : (records.map ConfigRecord.key).Nodup) :
    (SpeedAssigner.construct (SpeedAssigner.ConfigInput.parsed
        (JValue.arr (records.map ConfigRecord.toJson)))).length = records.length
    ∧ ∀ r ∈ records,
        mapFind (SpeedAssigner.construct (SpeedAssigner.ConfigInput.parsed
          (JValue.arr (records.map ConfigRecord.toJson)))) r.key =
          some (r.urban, r.rural) := by
  have hcon : SpeedAssigner.construct (SpeedAssigner.ConfigInput.parsed
      (JValue.arr (records.map ConfigRecord.toJson)))
      = records.map (fun r => (r.key, (r.urban, r.rural))) := by
    rw [construct_parsed_ok _ _ (buildRegistry_records records hwf),
      foldl_emplace_eq records [] (by simpa using hkeys)]
    simp
  rw [hcon]
  constructor
  · simp
  · intro r hr
    exact mapFind_map_entry records hkeys r hr


/-- C8 counterexample: a well-formed document holding the same
country/state record twice loads successfully but yields a registry of
size 1, not one entry per record (unordered_map::emplace keeps the
first entry). -/
theorem registry_duplicate_records_counterexample :
    SpeedAssigner.buildRegistry (JValue.arr [sampleRecord.toJson, sampleRecord.toJson]) =
      Except.ok [("us.pa", (sampleUrban, sampleRural))]
    ∧ (SpeedAssigner.construct (SpeedAssigner.ConfigInput.parsed
        (JValue.arr [sampleRecord.toJson, sampleRecord.toJson]))).length = 1
    ∧ (1 : Nat) ≠ 2 :=
  ⟨rfl, rfl, by decide⟩

/-- C8 witness: a two-record document with distinct keys us.pa and
us.ca yields a registry of size 2 in which both keys look up their own
tables unchanged. -/
theorem registry_roundtrip_distinct_keys_witness :
    (SpeedAssigner.construct (SpeedAssigner.ConfigInput.parsed
        (JValue.arr ([sampleRecord, sampleRecord2].map ConfigRecord.toJson)))).length = 2
    ∧ mapFind (SpeedAssigner.construct (SpeedAssigner.ConfigInput.parsed
        (JValue.arr ([sampleRecord, sampleRecord2].map ConfigRecord.toJson))))
        sampleRecord.key = some (sampleRecord.urban, sampleRecord.rural)
    ∧ mapFind (SpeedAssigner.construct (SpeedAssigner.ConfigInput.parsed
        (JValue.arr ([sampleRecord, sampleRecord2].map ConfigRecord.toJson))))
        sampleRecord2.key = some (sampleRecord2.urban, sampleRecord2.rural) :=
  ⟨(registry_roundtrip_distinct_keys [sampleRecord, sampleRecord2]
      (by decide) (by decide)).1,
   (registry_roundtrip_distinct_keys [sampleRecord, sampleRecord2]
      (by decide) (by decide)).2 sampleRecord (List.mem_cons_self _ _),
   (registry_roundtrip_distinct_keys [sampleRecord, sampleRecord2]
      (by decide) (by decide)).2 sampleRecord2
      (List.mem_cons_of_mem _ (List.mem_cons_self _ _))⟩


end Valhalla
